import Mathlib

/-!
Shallow embedding of `src/lib.rs` of the worldcoin-code-challenge repository:
an expiring cache of authenticated network clients with refresh-on-demand.

The embedding models:
- `reqwest::header::HeaderValue` as a string plus a sensitivity flag;
  `HeaderValue::from_str` fails exactly when a character is illegal in a
  header value (the `http` crate accepts bytes `b` with `32 ≤ b ∧ b ≠ 127`
  or `b = 9`; every byte of a multi-byte UTF-8 character is `≥ 128`, hence
  legal, so the check can be stated per character).
- `reqwest::Client` as a transport identity (a `Nat` naming the underlying
  connection pool) plus its default headers; `Client::clone` is the
  identity, which models that cloning shares the same transport.
- the global `CLIENTS` map as an association list with `HashMap` get/insert
  semantics, threaded through the call as explicit state.
- the external collaborators (`auth::authenticate`, `Client::builder().build()`)
  and the clock as an environment record; every invocation of the
  authentication collaborator is recorded in a call log so that claims about
  how often and with which arguments it is invoked can be stated.
-/

namespace RefreshCache

/-- `CLIENT_ID` constant from `src/lib.rs`. -/
def CLIENT_ID : String := "1bpd19lcr33qvg5cr3oi79rdap"

/-- `POOL_ID` constant from `src/lib.rs`. -/
def POOL_ID : String := "us-west-2_iLmIggsiy"

/-- The name of `reqwest::header::AUTHORIZATION`. -/
def AUTHORIZATION : String := "authorization"

/-- Model of `reqwest::header::HeaderValue`: the string plus the sensitive flag. -/
structure HeaderValue where
  value : String
  sensitive : Bool
deriving DecidableEq

/-- A character is legal in a header value (`http` crate rule, per character;
see the module comment). -/
def isValidHeaderChar (c : Char) : Bool :=
  decide ((32 ≤ c.toNat ∧ c.toNat ≠ 127) ∨ c.toNat = 9)

/-- All characters of `s` are legal in a header value. -/
def isValidHeaderValueStr (s : String) : Bool :=
  s.toList.all isValidHeaderChar

/-- Model of `HeaderValue::from_str`. -/
def HeaderValue.from_str (s : String) : Except String HeaderValue :=
  if isValidHeaderValueStr s then Except.ok ⟨s, false⟩
  else Except.error "failed to parse header value"

/-- Model of `HeaderValue::set_sensitive`. -/
def HeaderValue.set_sensitive (v : HeaderValue) (b : Bool) : HeaderValue :=
  { v with sensitive := b }

/-- Model of `reqwest::header::HeaderMap`. -/
abbrev HeaderMap := List (String × HeaderValue)

/-- Model of `HeaderMap::insert`: replace the value under an existing name,
else append. -/
def headerInsert : HeaderMap → String → HeaderValue → HeaderMap
  | [], name, v => [(name, v)]
  | (n, w) :: rest, name, v =>
      if n = name then (name, v) :: rest else (n, w) :: headerInsert rest name v

/-- Model of `reqwest::Client`: the identity of the shared underlying
transport plus the default headers it was built with. -/
structure Client where
  transport : Nat
  default_headers : HeaderMap
deriving DecidableEq

/-- Model of `Client::clone`: a clone is a handle to the same transport. -/
def Client.clone (c : Client) : Client := c

/-- `ExpiringClient` struct from `src/lib.rs`. -/
structure ExpiringClient where
  client : Client
  expiration_time : Int
deriving DecidableEq

/-- Model of the global `CLIENTS: Mutex<HashMap<String, ExpiringClient>>`
as explicit state. -/
abbrev Cache := List (String × ExpiringClient)

/-- Model of `HashMap::get`. -/
def getEntry : Cache → String → Option ExpiringClient
  | [], _ => none
  | (k, v) :: rest, key => if k = key then some v else getEntry rest key

/-- Model of `HashMap::insert`: overwrite the entry under an existing key,
else add it. -/
def insertEntry : Cache → String → ExpiringClient → Cache
  | [], key, v => [(key, v)]
  | (k, w) :: rest, key, v =>
      if k = key then (key, v) :: rest else (k, w) :: insertEntry rest key v

/-- `auth::AuthOutput` struct from `src/lib.rs`. -/
structure AuthOutput where
  access_token : String
  expires_in : Int
deriving DecidableEq

/-- A record of one invocation of the authentication collaborator with the
arguments it was passed. -/
structure AuthCall where
  client_id : String
  pool_id : String
  api_key : String
  api_secret : String
deriving DecidableEq

/-- The environment of one `refresh_client` call: the clock reading taken at
its start and the two external collaborators (authentication, client
construction). `build` returns the transport identity of the freshly built
client, or the construction error. -/
structure Env where
  now : Int
  authenticate : String → String → String → String → Except String AuthOutput
  build : HeaderMap → Except String Nat

/-- The observable outcome of one `refresh_client` call: the returned value,
the cache state after the call, and the log of authentication-collaborator
invocations the call made. -/
structure RunResult where
  result : Except String Client
  cache : Cache
  authCalls : List AuthCall

/-- The header map built on the successful refresh path: the sensitive
`Bearer` authorization value and the `X-Api-Key` header carrying the raw key
(lines 46–55 of `src/lib.rs`). -/
def mkHeaders (access_token api_key : String) : HeaderMap :=
  headerInsert (headerInsert [] AUTHORIZATION ⟨"Bearer " ++ access_token, true⟩)
    "X-Api-Key" ⟨api_key, false⟩

/-- The refresh path of `refresh_client` (lines 40–70 of `src/lib.rs`):
authenticate, build headers, build the client, store it with
`expiration_time = now + expires_in`, return it. -/
def doRefresh (env : Env) (cache : Cache) (api_key api_secret : String) (now : Int) :
    RunResult :=
  let call : AuthCall := ⟨CLIENT_ID, POOL_ID, api_key, api_secret⟩
  match env.authenticate CLIENT_ID POOL_ID api_key api_secret with
  | Except.error err => ⟨Except.error ("Authentication failed: " ++ err), cache, [call]⟩
  | Except.ok res =>
    match HeaderValue.from_str ("Bearer " ++ res.access_token) with
    | Except.error err => ⟨Except.error ("Invalid header value: " ++ err), cache, [call]⟩
    | Except.ok v =>
      let auth_value := v.set_sensitive true
      let headers := headerInsert [] AUTHORIZATION auth_value
      match HeaderValue.from_str api_key with
      | Except.error err => ⟨Except.error ("Invalid header value: " ++ err), cache, [call]⟩
      | Except.ok keyVal =>
        let headers := headerInsert headers "X-Api-Key" keyVal
        match env.build headers with
        | Except.error err => ⟨Except.error ("Failed to build client: " ++ err), cache, [call]⟩
        | Except.ok tid =>
          let client : Client := ⟨tid, headers⟩
          ⟨Except.ok client,
           insertEntry cache api_key ⟨client.clone, now + res.expires_in⟩,
           [call]⟩

/-- `refresh_client` from `src/lib.rs`: take `now`, look the key up under the
lock, serve a clone of a still-valid entry, otherwise refresh. -/
def refresh_client (env : Env) (cache : Cache) (api_key api_secret : String) : RunResult :=
  let now := env.now
  match getEntry cache api_key with
  | some client =>
      if now < client.expiration_time then ⟨Except.ok client.client.clone, cache, []⟩
      else doRefresh env cache api_key api_secret now
  | none => doRefresh env cache api_key api_secret now

/-- A batch of callers serialized by the global lock: each call runs on the
cache state the previous one left (the tokio `Mutex` admits no other
interleaving of the critical sections). Each caller brings its own
environment (its own clock reading). Returns the final cache and the
concatenated authentication call log. -/
def runBatch : List Env → Cache → String → String → Cache × List AuthCall
  | [], cache, _, _ => (cache, [])
  | e :: rest, cache, k, s =>
      let r := refresh_client e cache k s
      let b := runBatch rest r.cache k s
      (b.1, r.authCalls ++ b.2)

/-- A sample environment for concrete evaluations: the clock reads 0, the
authentication collaborator issues token `tok1` with a one-hour ttl, and the
builder hands out transport identity 7. -/
def sampleEnv : Env :=
  { now := 0
    authenticate := fun _ _ _ _ => Except.ok ⟨"tok1", 3600⟩
    build := fun _ => Except.ok 7 }

/-- A sample environment whose authentication collaborator fails. -/
def failEnv : Env :=
  { now := 0
    authenticate := fun _ _ _ _ => Except.error "bad credentials"
    build := fun _ => Except.ok 7 }

/-- A sample environment whose authentication collaborator issues a token
with a zero ttl. -/
def zeroTtlEnv : Env :=
  { now := 0
    authenticate := fun _ _ _ _ => Except.ok ⟨"tok0", 0⟩
    build := fun _ => Except.ok 5 }

/-- A sample client already in the cache for concrete evaluations. -/
def sampleClient : Client := ⟨3, []⟩

/-- A sample cache holding a valid entry under key `ABC` (expires at 100). -/
def sampleCache : Cache := [("ABC", ⟨sampleClient, 100⟩)]

/-! ### Helper lemmas about the cache map -/

lemma getEntry_insertEntry_self (cache : Cache) (k : String) (v : ExpiringClient) :
    getEntry (insertEntry cache k v) k = some v := by
  induction cache with
  | nil => simp [insertEntry, getEntry]
  | cons p rest ih =>
      obtain ⟨k2, w⟩ := p
      by_cases h : k2 = k <;> simp [insertEntry, getEntry, h, ih]

lemma getEntry_insertEntry_ne (cache : Cache) (k k2 : String) (v : ExpiringClient)
    (h : k2 ≠ k) : getEntry (insertEntry cache k v) k2 = getEntry cache k2 := by
  have hk : k ≠ k2 := fun h2 => h h2.symm
  induction cache with
  | nil => simp [insertEntry, getEntry, hk]
  | cons p rest ih =>
      obtain ⟨k3, w⟩ := p
      simp only [insertEntry]
      by_cases h3 : k3 = k
      · subst h3
        simp [getEntry, hk]
      · simp [getEntry, h3, ih]

lemma getEntry_insertEntry_isSome (cache : Cache) (k k2 : String) (v w : ExpiringClient)
    (h : getEntry cache k2 = some w) :
    ∃ w2, getEntry (insertEntry cache k v) k2 = some w2 := by
  by_cases hk : k2 = k
  · subst hk
    exact ⟨v, getEntry_insertEntry_self cache k2 v⟩
  · exact ⟨w, (getEntry_insertEntry_ne cache k k2 v hk).trans h⟩

/-! ### Helper lemmas about the two paths of `refresh_client` -/

lemma doRefresh_authCalls (env : Env) (cache : Cache) (k s : String) (now : Int) :
    (doRefresh env cache k s now).authCalls = [⟨CLIENT_ID, POOL_ID, k, s⟩] := by
  simp only [doRefresh]
  split
  · rfl
  · split
    · rfl
    · split
      · rfl
      · split
        · rfl
        · rfl

lemma doRefresh_cache_cases (env : Env) (cache : Cache) (k s : String) (now : Int) :
    (doRefresh env cache k s now).cache = cache ∨
      ∃ v, (doRefresh env cache k s now).cache = insertEntry cache k v := by
  simp only [doRefresh]
  split
  · exact Or.inl rfl
  · split
    · exact Or.inl rfl
    · split
      · exact Or.inl rfl
      · split
        · exact Or.inl rfl
        · exact Or.inr ⟨_, rfl⟩

lemma doRefresh_error_cache (env : Env) (cache : Cache) (k s : String) (now : Int)
    (e : String) (h : (doRefresh env cache k s now).result = Except.error e) :
    (doRefresh env cache k s now).cache = cache := by
  simp only [doRefresh] at h ⊢
  split at h
  · rfl
  · split at h
    · rfl
    · split at h
      · rfl
      · split at h
        · rfl
        · exact absurd h (by simp)

lemma doRefresh_success (env : Env) (cache : Cache) (k s : String) (now : Int)
    (res : AuthOutput) (tid : Nat)
    (hauth : env.authenticate CLIENT_ID POOL_ID k s = Except.ok res)
    (hv1 : isValidHeaderValueStr ("Bearer " ++ res.access_token) = true)
    (hv2 : isValidHeaderValueStr k = true)
    (hbuild : env.build (mkHeaders res.access_token k) = Except.ok tid) :
    doRefresh env cache k s now =
      ⟨Except.ok ⟨tid, mkHeaders res.access_token k⟩,
       insertEntry cache k
         ⟨⟨tid, mkHeaders res.access_token k⟩, now + res.expires_in⟩,
       [⟨CLIENT_ID, POOL_ID, k, s⟩]⟩ := by
  simp only [doRefresh, HeaderValue.from_str, hv1, hv2, if_true, hauth,
    HeaderValue.set_sensitive, mkHeaders] at hbuild ⊢
  simp [hbuild, Client.clone]

lemma refresh_client_hit (env : Env) (cache : Cache) (k s : String) (c : ExpiringClient)
    (hget : getEntry cache k = some c) (hv : env.now < c.expiration_time) :
    refresh_client env cache k s = ⟨Except.ok c.client.clone, cache, []⟩ := by
  simp [refresh_client, hget, hv]

lemma refresh_client_stale (env : Env) (cache : Cache) (k s : String)
    (hmiss : ∀ c, getEntry cache k = some c → c.expiration_time ≤ env.now) :
    refresh_client env cache k s = doRefresh env cache k s env.now := by
  simp only [refresh_client]
  cases hget : getEntry cache k with
  | none => rfl
  | some c =>
      have := hmiss c hget
      simp [not_lt.mpr this]

lemma mkHeaders_eq (t k : String) :
    mkHeaders t k =
      [(AUTHORIZATION, ⟨"Bearer " ++ t, true⟩), ("X-Api-Key", ⟨k, false⟩)] := rfl

lemma refresh_client_cache_cases (env : Env) (cache : Cache) (k s : String) :
    (refresh_client env cache k s).cache = cache ∨
      ∃ v, (refresh_client env cache k s).cache = insertEntry cache k v := by
  simp only [refresh_client]
  cases hget : getEntry cache k with
  | none => exact doRefresh_cache_cases env cache k s env.now
  | some c =>
      by_cases hv : env.now < c.expiration_time
      · simp [hv]
      · simp only [if_neg hv]
        exact doRefresh_cache_cases env cache k s env.now

lemma refresh_client_authCalls_cases (env : Env) (cache : Cache) (k s : String) :
    (refresh_client env cache k s).authCalls = [] ∨
      (refresh_client env cache k s).authCalls = [⟨CLIENT_ID, POOL_ID, k, s⟩] := by
  simp only [refresh_client]
  cases hget : getEntry cache k with
  | none => exact Or.inr (doRefresh_authCalls env cache k s env.now)
  | some c =>
      by_cases hv : env.now < c.expiration_time
      · simp [hv]
      · simp only [if_neg hv]
        exact Or.inr (doRefresh_authCalls env cache k s env.now)

lemma doRefresh_secret_congr (env : Env) (cache : Cache) (k s1 s2 : String) (now : Int)
    (hsame : env.authenticate CLIENT_ID POOL_ID k s1 =
      env.authenticate CLIENT_ID POOL_ID k s2) :
    (doRefresh env cache k s1 now).result = (doRefresh env cache k s2 now).result ∧
      (doRefresh env cache k s1 now).cache = (doRefresh env cache k s2 now).cache := by
  cases hx : env.authenticate CLIENT_ID POOL_ID k s1 with
  | error err =>
      have hs2 : env.authenticate CLIENT_ID POOL_ID k s2 = Except.error err :=
        hsame.symm.trans hx
      simp [doRefresh, hx, hs2]
  | ok res =>
      have hs2 : env.authenticate CLIENT_ID POOL_ID k s2 = Except.ok res :=
        hsame.symm.trans hx
      cases hy : HeaderValue.from_str ("Bearer " ++ res.access_token) with
      | error err => simp [doRefresh, hx, hs2, hy]
      | ok v =>
          cases hz : HeaderValue.from_str k with
          | error err => simp [doRefresh, hx, hs2, hy, hz]
          | ok keyVal =>
              cases hw : env.build (headerInsert
                  (headerInsert [] AUTHORIZATION (v.set_sensitive true))
                  "X-Api-Key" keyVal) with
              | error err => simp [doRefresh, hx, hs2, hy, hz, hw]
              | ok tid => simp [doRefresh, hx, hs2, hy, hz, hw]

lemma runBatch_all_hits (envs : List Env) (cache : Cache) (k s : String)
    (c : ExpiringClient) (hget : getEntry cache k = some c)
    (hv : ∀ e2 ∈ envs, e2.now < c.expiration_time) :
    runBatch envs cache k s = (cache, []) := by
  induction envs with
  | nil => rfl
  | cons e2 rest ih =>
      simp only [runBatch]
      rw [refresh_client_hit e2 cache k s c hget (hv e2 (by simp))]
      rw [ih (fun e3 he3 => hv e3 (by simp [he3]))]
      rfl

/-! ### Claim theorems -/

/-- C1: if the cache holds an entry for the key whose expiration time `E`
satisfies `now < E`, then `refresh_client` returns a clone of the cached
client (a handle to the same underlying transport), invokes the
authentication collaborator zero times, and returns without error; and the
validity test is exactly `now < expiration_time`: when it fails, the entry
is not served and an authentication invocation happens instead. -/
theorem C1_valid_hit_serves_cached_clone (env : Env) (cache : Cache) (k s : String)
    (c : ExpiringClient) (hget : getEntry cache k = some c) :
    (env.now < c.expiration_time →
      refresh_client env cache k s = ⟨Except.ok c.client.clone, cache, []⟩ ∧
        c.client.clone.transport = c.client.transport) ∧
    (¬ env.now < c.expiration_time →
      (refresh_client env cache k s).authCalls = [⟨CLIENT_ID, POOL_ID, k, s⟩]) := by
  constructor
  · intro hv
    exact ⟨refresh_client_hit env cache k s c hget hv, rfl⟩
  · intro hv
    rw [refresh_client_stale env cache k s (fun c2 hc2 => by
      rw [hget] at hc2
      injection hc2 with h
      rw [← h]
      exact not_lt.mp hv)]
    exact doRefresh_authCalls env cache k s env.now

/-- Witness for C1 at a concrete cache holding a valid entry. -/
theorem C1_witness :
    getEntry sampleCache "ABC" = some ⟨sampleClient, 100⟩ ∧
    ((sampleEnv.now < (100 : Int) →
      refresh_client sampleEnv sampleCache "ABC" "shh" =
        ⟨Except.ok sampleClient.clone, sampleCache, []⟩ ∧
        sampleClient.clone.transport = sampleClient.transport) ∧
    (¬ sampleEnv.now < (100 : Int) →
      (refresh_client sampleEnv sampleCache "ABC" "shh").authCalls =
        [⟨CLIENT_ID, POOL_ID, "ABC", "shh"⟩])) :=
  ⟨rfl, C1_valid_hit_serves_cached_clone sampleEnv sampleCache "ABC" "shh"
    ⟨sampleClient, 100⟩ rfl⟩

/-- C10: a cache hit performs no write: when the entry under the key is
valid at the clock reading of the call, the cache state after the call is
exactly the state before it (in particular the expiration time is not
extended on access). -/
theorem C10_hit_leaves_cache_unchanged (env : Env) (cache : Cache) (k s : String)
    (c : ExpiringClient) (hget : getEntry cache k = some c)
    (hv : env.now < c.expiration_time) :
    (refresh_client env cache k s).cache = cache := by
  rw [refresh_client_hit env cache k s c hget hv]

/-- Witness for C10 at a concrete cache holding a valid entry. -/
theorem C10_witness :
    getEntry sampleCache "ABC" = some ⟨sampleClient, 100⟩ ∧
    sampleEnv.now < (100 : Int) ∧
    (refresh_client sampleEnv sampleCache "ABC" "shh").cache = sampleCache :=
  ⟨rfl, by decide,
    C10_hit_leaves_cache_unchanged sampleEnv sampleCache "ABC" "shh"
      ⟨sampleClient, 100⟩ rfl (by decide)⟩

/-- C3: a call whose result is an error leaves the cache exactly as it was,
and cache updates are atomic: after any call the cache is either untouched
or equal to the prior cache with the one entry under the requested key
overwritten. -/
theorem C3_errors_leave_cache_unchanged (env : Env) (cache : Cache) (k s : String) :
    (∀ e, (refresh_client env cache k s).result = Except.error e →
      (refresh_client env cache k s).cache = cache) ∧
    ((refresh_client env cache k s).cache = cache ∨
      ∃ v, (refresh_client env cache k s).cache = insertEntry cache k v) := by
  constructor
  · intro e herr
    cases hget : getEntry cache k with
    | none =>
        rw [refresh_client_stale env cache k s (fun c2 hc2 => by
          rw [hget] at hc2; cases hc2)] at herr ⊢
        exact doRefresh_error_cache env cache k s env.now e herr
    | some c =>
        by_cases hv : env.now < c.expiration_time
        · rw [refresh_client_hit env cache k s c hget hv] at herr
          simp at herr
        · rw [refresh_client_stale env cache k s (fun c2 hc2 => by
            rw [hget] at hc2
            injection hc2 with h
            rw [← h]
            exact not_lt.mp hv)] at herr ⊢
          exact doRefresh_error_cache env cache k s env.now e herr
  · exact refresh_client_cache_cases env cache k s

/-- Witness for C3: a concrete failing authentication leaves the empty
cache empty. -/
theorem C3_witness :
    (refresh_client failEnv [] "ABC" "shh").result =
      Except.error "Authentication failed: bad credentials" ∧
    ((∀ e, (refresh_client failEnv [] "ABC" "shh").result = Except.error e →
      (refresh_client failEnv [] "ABC" "shh").cache = []) ∧
    ((refresh_client failEnv [] "ABC" "shh").cache = [] ∨
      ∃ v, (refresh_client failEnv [] "ABC" "shh").cache = insertEntry [] "ABC" v)) :=
  ⟨rfl, C3_errors_leave_cache_unchanged failEnv [] "ABC" "shh"⟩

/-- C7: frame property: a call for one key leaves every entry under any
other key unchanged, and never removes a key present before the call. -/
theorem C7_other_keys_unchanged (env : Env) (cache : Cache) (k s k2 : String) :
    (k2 ≠ k → getEntry (refresh_client env cache k s).cache k2 = getEntry cache k2) ∧
    (∀ w, getEntry cache k2 = some w →
      ∃ w2, getEntry (refresh_client env cache k s).cache k2 = some w2) := by
  rcases refresh_client_cache_cases env cache k s with h | ⟨v, h⟩
  · rw [h]
    exact ⟨fun _ => rfl, fun w hw => ⟨w, hw⟩⟩
  · rw [h]
    exact ⟨fun hne => getEntry_insertEntry_ne cache k k2 v hne,
      fun w hw => getEntry_insertEntry_isSome cache k k2 v w hw⟩

/-- Witness for C7: a refresh for key `DEF` leaves the entry under `ABC`
untouched. -/
theorem C7_witness :
    ("ABC" ≠ "DEF" →
      getEntry (refresh_client sampleEnv sampleCache "DEF" "shh").cache "ABC" =
        getEntry sampleCache "ABC") ∧
    (∀ w, getEntry sampleCache "ABC" = some w →
      ∃ w2, getEntry (refresh_client sampleEnv sampleCache "DEF" "shh").cache "ABC" =
        some w2) :=
  C7_other_keys_unchanged sampleEnv sampleCache "DEF" "shh" "ABC"

/-- C8: every invocation of the authentication collaborator that
`refresh_client` makes passes the process-wide `CLIENT_ID` and `POOL_ID`
constants together with the caller-supplied key and secret. -/
theorem C8_fixed_identity_constants (env : Env) (cache : Cache) (k s : String)
    (c : AuthCall) (hc : c ∈ (refresh_client env cache k s).authCalls) :
    c.client_id = CLIENT_ID ∧ c.pool_id = POOL_ID ∧ c.api_key = k ∧ c.api_secret = s := by
  rcases refresh_client_authCalls_cases env cache k s with h | h
  · rw [h] at hc
    cases hc
  · rw [h] at hc
    rw [List.mem_singleton] at hc
    subst hc
    exact ⟨rfl, rfl, rfl, rfl⟩

/-- Witness for C8 at a concrete refresh that does invoke the
collaborator. -/
theorem C8_witness :
    (⟨CLIENT_ID, POOL_ID, "ABC", "shh"⟩ : AuthCall) ∈
      (refresh_client failEnv [] "ABC" "shh").authCalls ∧
    ((⟨CLIENT_ID, POOL_ID, "ABC", "shh"⟩ : AuthCall).client_id = CLIENT_ID ∧
      (⟨CLIENT_ID, POOL_ID, "ABC", "shh"⟩ : AuthCall).pool_id = POOL_ID ∧
      (⟨CLIENT_ID, POOL_ID, "ABC", "shh"⟩ : AuthCall).api_key = "ABC" ∧
      (⟨CLIENT_ID, POOL_ID, "ABC", "shh"⟩ : AuthCall).api_secret = "shh") :=
  ⟨List.mem_singleton.mpr rfl,
    C8_fixed_identity_constants failEnv [] "ABC" "shh" ⟨CLIENT_ID, POOL_ID, "ABC", "shh"⟩
      (List.mem_singleton.mpr rfl)⟩

/-- C2: when no valid entry exists for the key (missing or expired), a
successful call invokes the authentication collaborator exactly once,
overwrites the entry under the key with the newly built client and
expiration `now + ttl_seconds` taken from the authentication result, and
returns that client. -/
theorem C2_refresh_replaces_entry (env : Env) (cache : Cache) (k s : String)
    (res : AuthOutput) (tid : Nat)
    (hmiss : ∀ c, getEntry cache k = some c → c.expiration_time ≤ env.now)
    (hauth : env.authenticate CLIENT_ID POOL_ID k s = Except.ok res)
    (hv1 : isValidHeaderValueStr ("Bearer " ++ res.access_token) = true)
    (hv2 : isValidHeaderValueStr k = true)
    (hbuild : env.build (mkHeaders res.access_token k) = Except.ok tid) :
    (refresh_client env cache k s).authCalls = [⟨CLIENT_ID, POOL_ID, k, s⟩] ∧
    (refresh_client env cache k s).cache =
      insertEntry cache k
        ⟨⟨tid, mkHeaders res.access_token k⟩, env.now + res.expires_in⟩ ∧
    (refresh_client env cache k s).result =
      Except.ok ⟨tid, mkHeaders res.access_token k⟩ := by
  rw [refresh_client_stale env cache k s hmiss,
    doRefresh_success env cache k s env.now res tid hauth hv1 hv2 hbuild]
  exact ⟨rfl, rfl, rfl⟩

/-- Witness for C2: a concrete successful refresh on the empty cache. -/
theorem C2_witness :
    (∀ c, getEntry [] "ABC" = some c → c.expiration_time ≤ sampleEnv.now) ∧
    sampleEnv.authenticate CLIENT_ID POOL_ID "ABC" "shh" =
      Except.ok ⟨"tok1", 3600⟩ ∧
    isValidHeaderValueStr ("Bearer " ++ "tok1") = true ∧
    isValidHeaderValueStr "ABC" = true ∧
    sampleEnv.build (mkHeaders "tok1" "ABC") = Except.ok 7 ∧
    ((refresh_client sampleEnv [] "ABC" "shh").authCalls =
      [⟨CLIENT_ID, POOL_ID, "ABC", "shh"⟩] ∧
    (refresh_client sampleEnv [] "ABC" "shh").cache =
      insertEntry [] "ABC" ⟨⟨7, mkHeaders "tok1" "ABC"⟩, sampleEnv.now + 3600⟩ ∧
    (refresh_client sampleEnv [] "ABC" "shh").result =
      Except.ok ⟨7, mkHeaders "tok1" "ABC"⟩) :=
  ⟨(fun c hc => by cases hc), rfl, (by decide), (by decide), rfl,
    C2_refresh_replaces_entry sampleEnv [] "ABC" "shh" ⟨"tok1", 3600⟩ 7
      (fun c hc => by cases hc) rfl (by decide) (by decide) rfl⟩

/-- C5: the client returned and stored by a successful refresh is built with
default headers holding exactly the authorization header whose value is
`Bearer ` followed by the access token (marked sensitive) and the
`X-Api-Key` header whose value is the literal key. -/
theorem C5_default_headers (env : Env) (cache : Cache) (k s : String)
    (res : AuthOutput) (tid : Nat)
    (hmiss : ∀ c, getEntry cache k = some c → c.expiration_time ≤ env.now)
    (hauth : env.authenticate CLIENT_ID POOL_ID k s = Except.ok res)
    (hv1 : isValidHeaderValueStr ("Bearer " ++ res.access_token) = true)
    (hv2 : isValidHeaderValueStr k = true)
    (hbuild : env.build (mkHeaders res.access_token k) = Except.ok tid) :
    (refresh_client env cache k s).result =
      Except.ok ⟨tid, [(AUTHORIZATION, ⟨"Bearer " ++ res.access_token, true⟩),
        ("X-Api-Key", ⟨k, false⟩)]⟩ ∧
    getEntry (refresh_client env cache k s).cache k =
      some ⟨⟨tid, [(AUTHORIZATION, ⟨"Bearer " ++ res.access_token, true⟩),
        ("X-Api-Key", ⟨k, false⟩)]⟩, env.now + res.expires_in⟩ := by
  rw [refresh_client_stale env cache k s hmiss,
    doRefresh_success env cache k s env.now res tid hauth hv1 hv2 hbuild]
  exact ⟨rfl, getEntry_insertEntry_self cache k _⟩

/-- Witness for C5: the concrete headers of a refreshed client. -/
theorem C5_witness :
    (∀ c, getEntry [] "KEY1" = some c → c.expiration_time ≤ sampleEnv.now) ∧
    sampleEnv.authenticate CLIENT_ID POOL_ID "KEY1" "shh" =
      Except.ok ⟨"tok1", 3600⟩ ∧
    isValidHeaderValueStr ("Bearer " ++ "tok1") = true ∧
    isValidHeaderValueStr "KEY1" = true ∧
    sampleEnv.build (mkHeaders "tok1" "KEY1") = Except.ok 7 ∧
    ((refresh_client sampleEnv [] "KEY1" "shh").result =
      Except.ok ⟨7, [(AUTHORIZATION, ⟨"Bearer " ++ "tok1", true⟩),
        ("X-Api-Key", ⟨"KEY1", false⟩)]⟩ ∧
    getEntry (refresh_client sampleEnv [] "KEY1" "shh").cache "KEY1" =
      some ⟨⟨7, [(AUTHORIZATION, ⟨"Bearer " ++ "tok1", true⟩),
        ("X-Api-Key", ⟨"KEY1", false⟩)]⟩, sampleEnv.now + 3600⟩) :=
  ⟨(fun c hc => by cases hc), rfl, (by decide), (by decide), rfl,
    C5_default_headers sampleEnv [] "KEY1" "shh" ⟨"tok1", 3600⟩ 7
      (fun c hc => by cases hc) rfl (by decide) (by decide) rfl⟩

/-- C6: a zero or negative `ttl_seconds` is not an error: the call succeeds
and stores an entry whose expiration is `now + ttl_seconds ≤ now`, so the
entry is immediately expired and every later call for the key at a time
`≥ now` triggers a fresh authentication invocation instead of serving it. -/
theorem C6_nonpositive_ttl_immediately_expired (env : Env) (cache : Cache)
    (k s : String) (res : AuthOutput) (tid : Nat)
    (hmiss : ∀ c, getEntry cache k = some c → c.expiration_time ≤ env.now)
    (hauth : env.authenticate CLIENT_ID POOL_ID k s = Except.ok res)
    (hv1 : isValidHeaderValueStr ("Bearer " ++ res.access_token) = true)
    (hv2 : isValidHeaderValueStr k = true)
    (hbuild : env.build (mkHeaders res.access_token k) = Except.ok tid)
    (httl : res.expires_in ≤ 0) :
    (refresh_client env cache k s).result =
      Except.ok ⟨tid, mkHeaders res.access_token k⟩ ∧
    getEntry (refresh_client env cache k s).cache k =
      some ⟨⟨tid, mkHeaders res.access_token k⟩, env.now + res.expires_in⟩ ∧
    env.now + res.expires_in ≤ env.now ∧
    (∀ env2 : Env, env.now ≤ env2.now →
      (refresh_client env2 (refresh_client env cache k s).cache k s).authCalls =
        [⟨CLIENT_ID, POOL_ID, k, s⟩]) := by
  rw [refresh_client_stale env cache k s hmiss,
    doRefresh_success env cache k s env.now res tid hauth hv1 hv2 hbuild]
  refine ⟨rfl, getEntry_insertEntry_self cache k _, by omega, ?_⟩
  intro env2 h2
  rw [refresh_client_stale env2 _ k s (fun c2 hc2 => by
    rw [getEntry_insertEntry_self] at hc2
    injection hc2 with h
    rw [← h]
    show env.now + res.expires_in ≤ env2.now
    omega)]
  exact doRefresh_authCalls env2 _ k s env2.now

/-- Witness for C6: a concrete refresh whose authentication result carries a
zero ttl. -/
theorem C6_witness :
    (∀ c, getEntry [] "ABC" = some c → c.expiration_time ≤ zeroTtlEnv.now) ∧
    zeroTtlEnv.authenticate CLIENT_ID POOL_ID "ABC" "shh" =
      Except.ok ⟨"tok0", 0⟩ ∧
    isValidHeaderValueStr ("Bearer " ++ "tok0") = true ∧
    isValidHeaderValueStr "ABC" = true ∧
    zeroTtlEnv.build (mkHeaders "tok0" "ABC") = Except.ok 5 ∧
    (0 : Int) ≤ 0 ∧
    ((refresh_client zeroTtlEnv [] "ABC" "shh").result =
      Except.ok ⟨5, mkHeaders "tok0" "ABC"⟩ ∧
    getEntry (refresh_client zeroTtlEnv [] "ABC" "shh").cache "ABC" =
      some ⟨⟨5, mkHeaders "tok0" "ABC"⟩, zeroTtlEnv.now + 0⟩ ∧
    zeroTtlEnv.now + 0 ≤ zeroTtlEnv.now ∧
    (∀ env2 : Env, zeroTtlEnv.now ≤ env2.now →
      (refresh_client env2 (refresh_client zeroTtlEnv [] "ABC" "shh").cache
        "ABC" "shh").authCalls = [⟨CLIENT_ID, POOL_ID, "ABC", "shh"⟩])) :=
  ⟨(fun c hc => by cases hc), rfl, (by decide), (by decide), rfl, (by decide),
    C6_nonpositive_ttl_immediately_expired zeroTtlEnv [] "ABC" "shh" ⟨"tok0", 0⟩ 5
      (fun c hc => by cases hc) rfl (by decide) (by decide) rfl (by decide)⟩

/-- C9: the secret influences the call only through the authentication
collaborator's output: two calls at the same clock reading and cache, with
the same key but different secrets, for which the collaborator answers
identically (or is never invoked), return the same value and leave the same
cache state. -/
theorem C9_secret_only_via_auth_output (env : Env) (cache : Cache) (k s1 s2 : String)
    (hsame : env.authenticate CLIENT_ID POOL_ID k s1 =
      env.authenticate CLIENT_ID POOL_ID k s2) :
    (refresh_client env cache k s1).result = (refresh_client env cache k s2).result ∧
    (refresh_client env cache k s1).cache = (refresh_client env cache k s2).cache := by
  simp only [refresh_client]
  cases hget : getEntry cache k with
  | none => exact doRefresh_secret_congr env cache k s1 s2 env.now hsame
  | some c =>
      by_cases hv : env.now < c.expiration_time
      · simp [hv]
      · simp only [if_neg hv]
        exact doRefresh_secret_congr env cache k s1 s2 env.now hsame

/-- Witness for C9: two different secrets under a collaborator that answers
both identically yield the same result and cache. -/
theorem C9_witness :
    sampleEnv.authenticate CLIENT_ID POOL_ID "ABC" "shh" =
      sampleEnv.authenticate CLIENT_ID POOL_ID "ABC" "other" ∧
    ((refresh_client sampleEnv [] "ABC" "shh").result =
      (refresh_client sampleEnv [] "ABC" "other").result ∧
    (refresh_client sampleEnv [] "ABC" "shh").cache =
      (refresh_client sampleEnv [] "ABC" "other").cache) :=
  ⟨rfl, C9_secret_only_via_auth_output sampleEnv [] "ABC" "shh" "other" rfl⟩

/-- C4 counterexample: two simultaneous callers (both with clock reading 0)
for a missing key, serialized by the global lock, each trigger their own
authentication invocation when the issued ttl is 0, because the entry the
first caller stores is already expired at the second caller's clock
reading: the collaborator is invoked twice for the batch, not at most
once. -/
theorem C4_counterexample :
    (runBatch [zeroTtlEnv, zeroTtlEnv] [] "ABC" "shh").2.length = 2 ∧
    ¬ (runBatch [zeroTtlEnv, zeroTtlEnv] [] "ABC" "shh").2.length ≤ 1 := by
  have h : (runBatch [zeroTtlEnv, zeroTtlEnv] [] "ABC" "shh").2.length = 2 := rfl
  exact ⟨h, by rw [h]; omega⟩

/-- C4 as amended: a batch of simultaneous callers for the same missing or
expired key, serialized by the global lock, invokes the authentication
collaborator exactly once, provided the first caller's refresh succeeds and
the issued `ttl_seconds` is positive (so the stored entry is still valid at
the other callers' clock readings). -/
theorem C4_amended_serialized_batch_single_auth (e : Env) (envs : List Env)
    (cache : Cache) (k s : String) (res : AuthOutput) (tid : Nat)
    (hmiss : ∀ c, getEntry cache k = some c → c.expiration_time ≤ e.now)
    (hsim : ∀ e2 ∈ envs, e2.now = e.now)
    (hauth : e.authenticate CLIENT_ID POOL_ID k s = Except.ok res)
    (hv1 : isValidHeaderValueStr ("Bearer " ++ res.access_token) = true)
    (hv2 : isValidHeaderValueStr k = true)
    (hbuild : e.build (mkHeaders res.access_token k) = Except.ok tid)
    (httl : 0 < res.expires_in) :
    (runBatch (e :: envs) cache k s).2 = [⟨CLIENT_ID, POOL_ID, k, s⟩] := by
  have h1 : refresh_client e cache k s =
      ⟨Except.ok ⟨tid, mkHeaders res.access_token k⟩,
        insertEntry cache k
          ⟨⟨tid, mkHeaders res.access_token k⟩, e.now + res.expires_in⟩,
        [⟨CLIENT_ID, POOL_ID, k, s⟩]⟩ :=
    (refresh_client_stale e cache k s hmiss).trans
      (doRefresh_success e cache k s e.now res tid hauth hv1 hv2 hbuild)
  have h2 : runBatch envs
      (insertEntry cache k
        ⟨⟨tid, mkHeaders res.access_token k⟩, e.now + res.expires_in⟩) k s =
      (insertEntry cache k
        ⟨⟨tid, mkHeaders res.access_token k⟩, e.now + res.expires_in⟩, []) :=
    runBatch_all_hits envs _ k s _
      (getEntry_insertEntry_self cache k
        ⟨⟨tid, mkHeaders res.access_token k⟩, e.now + res.expires_in⟩)
      (fun e2 he2 => by
        rw [hsim e2 he2]
        show e.now < e.now + res.expires_in
        omega)
  simp [runBatch, h1, h2]

/-- Witness for the amended C4: two simultaneous callers with a one-hour
ttl make exactly one authentication invocation. -/
theorem C4_amended_witness :
    (∀ c, getEntry [] "ABC" = some c → c.expiration_time ≤ sampleEnv.now) ∧
    (∀ e2 ∈ [sampleEnv], Env.now e2 = sampleEnv.now) ∧
    sampleEnv.authenticate CLIENT_ID POOL_ID "ABC" "shh" =
      Except.ok ⟨"tok1", 3600⟩ ∧
    isValidHeaderValueStr ("Bearer " ++ "tok1") = true ∧
    isValidHeaderValueStr "ABC" = true ∧
    sampleEnv.build (mkHeaders "tok1" "ABC") = Except.ok 7 ∧
    (0 : Int) < 3600 ∧
    (runBatch [sampleEnv, sampleEnv] [] "ABC" "shh").2 =
      [⟨CLIENT_ID, POOL_ID, "ABC", "shh"⟩] :=
  ⟨(fun c hc => by cases hc),
    (fun e2 he2 => by rw [List.mem_singleton] at he2; rw [he2]),
    rfl, (by decide), (by decide), rfl, (by decide),
    C4_amended_serialized_batch_single_auth sampleEnv [sampleEnv] [] "ABC" "shh"
      ⟨"tok1", 3600⟩ 7 (fun c hc => by cases hc)
      (fun e2 he2 => by rw [List.mem_singleton] at he2; rw [he2]) rfl (by decide)
      (by decide) rfl (by decide)⟩

end RefreshCache
